import Mathlib

/-!
Verification of the DataManagerJob operator handlers (`operator/handlers.py`).

The module is embedded shallowly: the two kopf handlers `create` and
`job_event` become pure Lean functions that return the sequence of external
actions they perform (API create/delete calls, sleeps, log records), together
with an error outcome.  Kubernetes API failures are supplied by an explicit
oracle argument (the status/body an `ApiException` would carry), so that the
handlers' reaction to API errors can be stated and proved.
-/

namespace JobOperator

/-- Basename for all the operator's pod labels (`POD_BASE_LABEL`). -/
def POD_BASE_LABEL : String := "data-manager.informaticsmatters.com"

/-- Label identifying the purpose of the pod (`POD_PURPOSE_LABEL`). -/
def POD_PURPOSE_LABEL : String := POD_BASE_LABEL ++ "/purpose"

/-- Label identifying the instance ID for the Pod (`POD_INSTANCE_LABEL`). -/
def POD_INSTANCE_LABEL : String := POD_BASE_LABEL ++ "/instance-id"

/-- Label identifying the instance as a DataManagerJob (`POD_INSTANCE_IS_JOB`). -/
def POD_INSTANCE_IS_JOB : String := POD_BASE_LABEL ++ "/instance-is-job"

/-- Label identifying the task ID for the Pod (`POD_TASK_ID_LABEL`). -/
def POD_TASK_ID_LABEL : String := POD_BASE_LABEL ++ "/task-id"

/-- Label protecting a Pod from automatic deletion (`POD_DEBUG_LABEL`). -/
def POD_DEBUG_LABEL : String := POD_BASE_LABEL ++ "/debug"

/-- Value of the purpose label (`POD_PURPOSE_LABEL_VALUE`). -/
def POD_PURPOSE_LABEL_VALUE : String := "INSTANCE"

/-- Default of `_POD_PRE_DELETE_DELAY_S` (the `JO_POD_PRE_DELETE_DELAY_S`
environment variable defaults to the string `5`). -/
def defaultPodPreDeleteDelayS : Nat := 5

/-- The application service account (`SA`). -/
def SA : String := "data-manager-app"

/-- Default cpu request/limit (`default_cpu`). -/
def default_cpu : String := "1"

/-- Default memory request/limit (`default_memory`). -/
def default_memory : String := "1Gi"

/-- Default project mount path (`default_project_mount`). -/
def default_project_mount : String := "/project"

/-- Default project claim name (`default_project_claim_name`). -/
def default_project_claim_name : String := "project"

/-- Default run-as-user (`default_user_id`). -/
def default_user_id : Nat := 1001

/-- Default run-as-group (`default_group_id`). -/
def default_group_id : Nat := 1001

/-- Default fs-group (`default_fs_group`).  Declared by the module but never
referenced by the Pod construction, which hard-codes `fsGroup: 0`. -/
def default_fs_group : Nat := 1001

/-- The rendered Nextflow kubernetes config file: the module-level
`nextflow_config` template with its `%(...)s` placeholders substituted, as
performed by `nextflow_config % configmap_vars` in `create`. -/
def nextflowConfigText (name sa : String) (sc_run_as_user : Nat)
    (claim_name project_mount project_id : String) : String :=
  "\nprocess \x7b\n  pod = [ [nodeSelector: \x27informaticsmatters.com/purpose-worker=yes\x27],\n          [label: \x27data-manager.informaticsmatters.com/instance-id\x27,\n           value: \x27" ++ name
  ++ "\x27] ]\n\x7d\nexecutor \x7b\n  name = \x27k8s\x27\n\x7d\nk8s \x7b\n  serviceAccount = \x27" ++ sa
  ++ "\x27\n  runAsUser = " ++ toString sc_run_as_user
  ++ "\n  storageClaimName = \x27" ++ claim_name
  ++ "\x27\n  storageMountPath = \x27" ++ project_mount
  ++ "\x27\n  storageSubPath = \x27" ++ project_id
  ++ "\x27\n  workDir = \x27" ++ project_mount ++ "/." ++ name ++ "/work\x27\n\x7d\n"

/-! ### A model of Python `shlex.split` (posix mode, whitespace-split)

`create` tokenizes the command string with `shlex.split(command)`, i.e. a
`shlex` lexer with `posix=True`, `whitespace_split=True` and no comment
characters.  The states below mirror the lexer's states: outside a word,
inside a word, inside single/double quotes, and after a backslash escape seen
outside quotes or inside double quotes.  An unbalanced quote raises
`ValueError(\x27No closing quotation\x27)` and a trailing escape raises
`ValueError(\x27No escaped character\x27)`; these become `Except.error`. -/

/-- Lexer states of the `shlex` model. -/
inductive LexState where
  | ws
  | word
  | squote
  | dquote
  | escWord
  | escDquote
deriving DecidableEq

/-- The single-quote character. -/
def squoteChar : Char := Char.ofNat 39

/-- The double-quote character. -/
def dquoteChar : Char := Char.ofNat 34

/-- The backslash (escape) character. -/
def backslashChar : Char := Char.ofNat 92

/-- The `shlex` whitespace characters (`shlex.whitespace`). -/
def shlexWhitespace : List Char := [' ', Char.ofNat 9, Char.ofNat 13, Char.ofNat 10]

/-- One pass of the `shlex` lexer over the remaining characters.
`quoted` records whether the current token saw a quote (an empty quoted token
is still emitted); `tok` is the token built so far; `acc` the emitted tokens. -/
def shlexRun : List Char → LexState → Bool → String → List String →
    Except String (List String)
  | [], .ws, _, _, acc => .ok acc
  | [], .word, quoted, tok, acc =>
      .ok (if tok ≠ "" ∨ quoted = true then acc ++ [tok] else acc)
  | [], .squote, _, _, _ => .error "No closing quotation"
  | [], .dquote, _, _, _ => .error "No closing quotation"
  | [], .escWord, _, _, _ => .error "No escaped character"
  | [], .escDquote, _, _, _ => .error "No escaped character"
  | c :: rest, .ws, quoted, tok, acc =>
      if c ∈ shlexWhitespace then shlexRun rest .ws false "" acc
      else if c = backslashChar then shlexRun rest .escWord quoted tok acc
      else if c = squoteChar then shlexRun rest .squote true tok acc
      else if c = dquoteChar then shlexRun rest .dquote true tok acc
      else shlexRun rest .word quoted (tok.push c) acc
  | c :: rest, .word, quoted, tok, acc =>
      if c ∈ shlexWhitespace then
        if tok ≠ "" ∨ quoted = true then shlexRun rest .ws false "" (acc ++ [tok])
        else shlexRun rest .ws false "" acc
      else if c = squoteChar then shlexRun rest .squote true tok acc
      else if c = dquoteChar then shlexRun rest .dquote true tok acc
      else if c = backslashChar then shlexRun rest .escWord quoted tok acc
      else shlexRun rest .word quoted (tok.push c) acc
  | c :: rest, .squote, quoted, tok, acc =>
      if c = squoteChar then shlexRun rest .word quoted tok acc
      else shlexRun rest .squote quoted (tok.push c) acc
  | c :: rest, .dquote, quoted, tok, acc =>
      if c = dquoteChar then shlexRun rest .word quoted tok acc
      else if c = backslashChar then shlexRun rest .escDquote quoted tok acc
      else shlexRun rest .dquote quoted (tok.push c) acc
  | c :: rest, .escWord, quoted, tok, acc =>
      shlexRun rest .word quoted (tok.push c) acc
  | c :: rest, .escDquote, quoted, tok, acc =>
      if c = backslashChar ∨ c = dquoteChar then
        shlexRun rest .dquote quoted (tok.push c) acc
      else shlexRun rest .dquote quoted ((tok.push backslashChar).push c) acc

/-- Model of `shlex.split(s)` as used by `create`. -/
def shlexSplit (s : String) : Except String (List String) :=
  shlexRun s.toList .ws false "" []

/-- Split a character list at every occurrence of `sep`, keeping empty
segments, as Python `str.split` does for a one-character separator. -/
def splitOnChar (sep : Char) : List Char → List (List Char)
  | [] => [[]]
  | c :: rest =>
    match splitOnChar sep rest with
    | [] => [[c]]
    | t :: ts => if c = sep then [] :: t :: ts else (c :: t) :: ts

/-- Model of Python `s.split(sep)` for a one-character separator. -/
def pySplit (sep : Char) (s : String) : List String :=
  (splitOnChar sep s.toList).map String.mk

/-- Model of Python `s.lower()`.  It lower-cases character by character;
on the ASCII range (all characters the tag comparison can distinguish) this
agrees with Python's Unicode lower-casing. -/
def pyLower (s : String) : String :=
  String.mk (s.toList.map Char.toLower)

/-- The image tag computed by `create`:
`image_parts = image.split(':')` and
`image_tag = 'latest' if len(image_parts) == 1 else image_parts[1]`.
`split` never returns an empty list, so index 1 exists whenever the length is
not 1; the `getD` default is therefore never used. -/
def imageTag (image : String) : String :=
  let image_parts : List String := pySplit ':' image
  if image_parts.length = 1 then "latest" else image_parts.getD 1 "latest"

/-- The pull policy computed by `create`: `Always` when the lower-cased tag is
`latest` or `stable`, else `IfNotPresent`. -/
def image_pull_policy_of (image : String) : String :=
  if pyLower (imageTag image) ∈ (["latest", "stable"] : List String) then "Always"
  else "IfNotPresent"

/-- Model of Python `os.path.join` on two POSIX path segments, as used for
`os.path.join(working_directory, working_sub_path)`. -/
def osPathJoin (a b : String) : String :=
  if b.startsWith "/" then b
  else if a = "" ∨ a.endsWith "/" then a ++ b
  else a ++ "/" ++ b

/-- The optional container working directory computed by `create`: set only
when `working_directory` is truthy, joined with `working_sub_path` only when
the latter is truthy. -/
def workingDirPath (wd wsp : Option String) : Option String :=
  match wd with
  | none => none
  | some w =>
      if w = "" then none
      else
        match wsp with
        | none => some w
        | some sp => if sp = "" then some w else some (osPathJoin w sp)

/-! ### Kubernetes object model (the dictionaries built by `create`) -/

/-- The ConfigMap dictionary built by `create` (`configmap_dmk`). -/
structure ConfigMap where
  name : String
  labels : List (String × String)
  data : List (String × String)
deriving DecidableEq

/-- A cpu/memory pair, used for both requests and limits. -/
structure ResourceAmounts where
  cpu : String
  memory : String
deriving DecidableEq

/-- The container `resources` dictionary. -/
structure Resources where
  requests : ResourceAmounts
  limits : ResourceAmounts
deriving DecidableEq

/-- A container volume mount. -/
structure VolumeMount where
  name : String
  mountPath : String
  subPath : String
deriving DecidableEq

/-- The single container of the Pod dictionary. -/
structure Container where
  name : String
  image : String
  command : List String
  imagePullPolicy : String
  terminationMessagePolicy : String
  env : List (String × String)
  resources : Resources
  volumeMounts : List VolumeMount
  workingDir : Option String
deriving DecidableEq

/-- The pod-level security context dictionary. -/
structure PodSecurityContext where
  runAsUser : Nat
  runAsGroup : Nat
  fsGroup : Nat
deriving DecidableEq

/-- A pod volume source: a persistent volume claim or a ConfigMap. -/
inductive VolumeSource where
  | persistentVolumeClaim (claimName : String)
  | configMap (name : String)
deriving DecidableEq

/-- A pod volume. -/
structure Volume where
  name : String
  source : VolumeSource
deriving DecidableEq

/-- The Pod dictionary built by `create`. -/
structure Pod where
  name : String
  labels : List (String × String)
  serviceAccountName : String
  restartPolicy : String
  containers : List Container
  securityContext : PodSecurityContext
  volumes : List Volume
deriving DecidableEq

/-! ### The raw job spec (the CRD `spec` mapping given to `create`)

Absent dictionary keys are `none`.  A missing or empty `spec` mapping (falsy
in Python) is modelled as `none` at the `create` call. -/

/-- The `project` sub-mapping of the spec. -/
structure ProjectSpec where
  id : Option String := none
  claimName : Option String := none
deriving DecidableEq

/-- The `securityContext` sub-mapping of the spec. -/
structure SecurityContextSpec where
  runAsUser : Option Nat := none
  runAsGroup : Option Nat := none
deriving DecidableEq

/-- One of the `requests`/`limits` sub-mappings of the spec. -/
structure ResourceAmountsSpec where
  cpu : Option String := none
  memory : Option String := none
deriving DecidableEq

/-- The `resources` sub-mapping of the spec. -/
structure ResourcesSpec where
  requests : Option ResourceAmountsSpec := none
  limits : Option ResourceAmountsSpec := none
deriving DecidableEq

/-- The raw DataManagerJob spec mapping. -/
structure JobSpec where
  image : Option String := none
  command : Option String := none
  taskId : Option String := none
  project : Option ProjectSpec := none
  projectMount : Option String := none
  workingDirectory : Option String := none
  workingSubPath : Option String := none
  securityContext : Option SecurityContextSpec := none
  resources : Option ResourcesSpec := none
  debug : Option Bool := none
deriving DecidableEq

/-! ### Actions, API oracles and handler results -/

/-- An observable action performed by a handler, in execution order. -/
inductive Action where
  | logDebug (msg : String)
  | logInfo (msg : String)
  | logWarning (msg : String)
  | sleep (seconds : Nat)
  | createConfigMap (nspace : String) (cm : ConfigMap)
  | createPod (nspace : String) (pod : Pod)
  | deletePod (name nspace : String)
  | deleteConfigMap (name nspace : String)
deriving DecidableEq

/-- Is the action a Kubernetes delete call? -/
def Action.isDelete : Action → Bool
  | .deletePod _ _ => true
  | .deleteConfigMap _ _ => true
  | _ => false

/-- Is the action a Kubernetes delete call or a sleep? -/
def Action.isDeleteOrSleep : Action → Bool
  | .deletePod _ _ => true
  | .deleteConfigMap _ _ => true
  | .sleep _ => true
  | _ => false

/-- The data carried by a `kubernetes.client.exceptions.ApiException`. -/
structure ApiExc where
  status : Nat
  body : String
deriving DecidableEq

/-- Outcomes of the two delete calls made by `job_event`: `none` means the
call succeeds, `some e` means it raises `ApiException` `e`. -/
structure DeleteOracle where
  podDelete : Option ApiExc := none
  cmDelete : Option ApiExc := none
deriving DecidableEq

/-- Outcomes of the two create calls made by `create`. -/
structure CreateOracle where
  cmCreate : Option ApiExc := none
  podCreate : Option ApiExc := none
deriving DecidableEq

/-- The error outcome of the `create` handler: `kopf.PermanentError`, or the
uncaught `ValueError` escaping from `shlex.split`. -/
inductive CreateError where
  | permanent (msg : String)
  | valueError (msg : String)
deriving DecidableEq

/-- The result of a `create` invocation: the actions it performed and the
error it raised, if any. -/
structure CreateResult where
  actions : List Action
  err : Option CreateError
deriving DecidableEq

/-- A `raise kopf.PermanentError(msg)` before any action was performed. -/
def permRes (msg : String) : CreateResult :=
  { actions := [], err := some (CreateError.permanent msg) }

/-! ### The `create` handler -/

/-- The ConfigMap dictionary `configmap_dmk` built by `create`. -/
def buildConfigMap (name project_claim_name project_id project_mount : String)
    (sc_run_as_user : Nat) : ConfigMap :=
  { name := "nf-config-" ++ name
  , labels := [("app", name)]
  , data := [("nextflow.config",
      nextflowConfigText name SA sc_run_as_user project_claim_name
        project_mount project_id)] }

/-- The Pod dictionary built by `create`, including the conditional
`workingDir` assignment and the conditional debug label. -/
def buildPod (name image : String) (command_items : List String)
    (image_pull_policy task_id : String)
    (sc_run_as_user sc_run_as_group : Nat)
    (cpu_request memory_request cpu_limit memory_limit : String)
    (project_mount project_id project_claim_name : String)
    (wdPath : Option String) (debug : Bool) : Pod :=
  { name := name
  , labels :=
      [(POD_PURPOSE_LABEL, POD_PURPOSE_LABEL_VALUE),
       (POD_INSTANCE_LABEL, name),
       (POD_INSTANCE_IS_JOB, "yes"),
       (POD_TASK_ID_LABEL, task_id)] ++
      (if debug then [(POD_DEBUG_LABEL, "yes")] else [])
  , serviceAccountName := SA
  , restartPolicy := "Never"
  , containers :=
      [{ name := name
       , image := image
       , command := command_items
       , imagePullPolicy := image_pull_policy
       , terminationMessagePolicy := "FallbackToLogsOnError"
       , env := [("NXF_WORK", project_mount ++ "/." ++ name ++ "/work")]
       , resources :=
           { requests := { cpu := cpu_request, memory := memory_request }
           , limits := { cpu := cpu_limit, memory := memory_limit } }
       , volumeMounts :=
           [{ name := "project", mountPath := project_mount, subPath := project_id },
            { name := "nf-config", mountPath := "/code/nextflow.config",
              subPath := "nextflow.config" }]
       , workingDir := wdPath }]
  , securityContext :=
      { runAsUser := sc_run_as_user, runAsGroup := sc_run_as_group, fsGroup := 0 }
  , volumes :=
      [{ name := "project",
         source := VolumeSource.persistentVolumeClaim project_claim_name },
       { name := "nf-config",
         source := VolumeSource.configMap ("nf-config-" ++ name) }] }

/-- The body of `create` after the mandatory-field validation has passed:
tokenization, defaulting, ConfigMap creation, then Pod creation.  API
exceptions from either create call become `kopf.PermanentError`. -/
def createResolved (name nspace : String) (s : JobSpec) (orc : CreateOracle) :
    CreateResult :=
  let image := s.image.getD ""
  let command := s.command.getD ""
  let task_id := s.taskId.getD ""
  let project_id := (s.project.getD {}).id.getD ""
  let image_pull_policy := image_pull_policy_of image
  match shlexSplit command with
  | .error msg => { actions := [], err := some (CreateError.valueError msg) }
  | .ok command_items =>
    let sc_run_as_user := (s.securityContext.getD {}).runAsUser.getD default_user_id
    let sc_run_as_group := (s.securityContext.getD {}).runAsGroup.getD default_group_id
    let cpu_request := ((s.resources.getD {}).requests.getD {}).cpu.getD default_cpu
    let memory_request := ((s.resources.getD {}).requests.getD {}).memory.getD default_memory
    let cpu_limit := ((s.resources.getD {}).limits.getD {}).cpu.getD default_cpu
    let memory_limit := ((s.resources.getD {}).limits.getD {}).memory.getD default_memory
    let project_mount := s.projectMount.getD default_project_mount
    let project_claim_name := (s.project.getD {}).claimName.getD default_project_claim_name
    let cm := buildConfigMap name project_claim_name project_id project_mount sc_run_as_user
    match orc.cmCreate with
    | some e =>
        { actions := [Action.createConfigMap nspace cm]
        , err := some (CreateError.permanent
            ("ApiException (" ++ toString e.status ++ ")")) }
    | none =>
      let wdPath := workingDirPath s.workingDirectory s.workingSubPath
      let debug := s.debug.getD false
      let pod := buildPod name image command_items image_pull_policy task_id
        sc_run_as_user sc_run_as_group cpu_request memory_request cpu_limit
        memory_limit project_mount project_id project_claim_name wdPath debug
      let acts :=
        [Action.createConfigMap nspace cm,
         Action.logInfo ("Created ConfigMap " ++ name)] ++
        (match wdPath with
         | some p => [Action.logWarning
             ("spec.workingDirectory is set. Setting workingDir to " ++ p)]
         | none => []) ++
        (if debug then
           [Action.logWarning
             "spec.debug is set. The corresponding Pod will not be automatically deleted"]
         else []) ++
        [Action.createPod nspace pod]
      match orc.podCreate with
      | some e =>
          { actions := acts
          , err := some (CreateError.permanent
              ("ApiException (" ++ toString e.status ++ ")")) }
      | none =>
          { actions := acts ++ [Action.logInfo ("Created Pod " ++ name)]
          , err := none }

/-- The `create` handler for DataManagerJob create events.  Mandatory
properties are validated first, each failure raising `kopf.PermanentError`
with the source's message and performing no action. -/
def create (name nspace : String) (spec : Option JobSpec) (orc : CreateOracle) :
    CreateResult :=
  if name = "" then permRes "The object must have a name"
  else if nspace = "" then permRes "The object must have a namespace"
  else
    match spec with
    | none => permRes "The object must have a spec"
    | some s =>
      if s.image.getD "" = "" then permRes "image is not defined"
      else if s.command.getD "" = "" then permRes "command is not defined"
      else if s.taskId.getD "" = "" then permRes "taskId is not defined"
      else if (s.project.getD {}).id.getD "" = "" then
        permRes "project.id is not defined"
      else createResolved name nspace s orc

/-! ### The `job_event` handler -/

/-- The pod carried by a watch event: the fields of `event[\x27object\x27]`
read by `job_event` (`status.phase`, `metadata.name`, `metadata.namespace`,
`metadata.labels`). -/
structure PodObj where
  name : String
  nspace : String
  phase : String
  labels : List (String × String)
deriving DecidableEq

/-- A pod watch event delivered to `job_event`. -/
structure Event where
  type : String
  object : PodObj
deriving DecidableEq

/-- The terminal phases checked by `job_event`. -/
def terminalPhases : List String := ["Succeeded", "Failed", "Completed"]

/-- The `job_event` handler.  Returns the actions performed, in order, and
the uncaught Python error, if any (`some` only when the mandatory
`instance-id` label lookup would raise `KeyError`; `ApiException`s from the
two delete calls are caught and logged). -/
def jobEvent (delay : Nat) (event : Event) (orc : DeleteOracle) :
    List Action × Option String :=
  let a0 := [Action.logDebug ("Handling event_type=" ++ event.type)]
  if event.type = "MODIFIED" then
    let pod := event.object
    let pod_phase := pod.phase
    let a1 := a0 ++ [Action.logInfo
      ("Handling event type=" ++ event.type ++ " pod_phase=" ++ pod_phase ++ "...")]
    if pod_phase ∈ terminalPhases then
      let pod_name := pod.name
      let a2 := a1 ++ [Action.logInfo ("...for Pod " ++ pod_name)]
      if (pod.labels.lookup POD_DEBUG_LABEL).isSome then
        (a2 ++ [Action.logWarning ("Not deleting Job \"" ++ pod_name ++
          "\". It is protected from deletion as it has a debug label.")], none)
      else
        let a3 := a2 ++ [Action.logInfo ("Job \"" ++ pod_name ++ "\" has finished.")]
        let a4 := a3 ++
          (if delay > 0 then
            [Action.logInfo ("Deleting \"" ++ pod_name ++ "\" after a delay of " ++
               toString delay ++ " seconds..."),
             Action.sleep delay]
           else [])
        let pod_namespace := pod.nspace
        let a5 := a4 ++
          [Action.logInfo ("Deleting Pod \"" ++ pod_name ++ "\" (namespace=" ++
             pod_namespace ++ ")..."),
           Action.deletePod pod_name pod_namespace]
        let a6 := a5 ++
          (match orc.podDelete with
           | some e => [Action.logWarning ("ApiException (" ++ toString e.status ++
               ") deleting Pod \"" ++ pod_name ++ "\" (" ++ e.body ++ ")")]
           | none => [])
        match pod.labels.lookup POD_INSTANCE_LABEL with
        | none => (a6, some "KeyError")
        | some instance_id =>
          let cm_name := "nf-config-" ++ instance_id
          let a7 := a6 ++
            [Action.logInfo ("Deleting ConfigMap \"" ++ cm_name ++ "\"..."),
             Action.deleteConfigMap cm_name pod_namespace]
          let a8 := a7 ++
            (match orc.cmDelete with
             | some e => [Action.logWarning ("ApiException (" ++ toString e.status ++
                 ") deleting ConfigMap \"" ++ cm_name ++ "\"(" ++ e.body ++ ")")]
             | none => [])
          (a8 ++ [Action.logInfo ("Deleted \"" ++ pod_name)], none)
    else (a1, none)
  else (a0, none)

/-- The pods passed to `create_namespaced_pod` in a create result's trace. -/
def createdPods (r : CreateResult) : List Pod :=
  r.actions.filterMap (fun a =>
    match a with
    | Action.createPod _ p => some p
    | _ => none)

/-! ### Claim-comparison definitions for the image-tag policy -/

/-- Modelled from the claim's words, for comparison with the source: the
image tag read as "the text after the colon, or latest when no colon is
present" — i.e. everything following the first colon. -/
def claimImageTag (image : String) : String :=
  match pySplit ':' image with
  | [] => "latest"
  | [_] => "latest"
  | _ :: rest => String.intercalate ":" rest

/-- The pull policy the claim's words prescribe, built on `claimImageTag`. -/
def claimPullPolicy (image : String) : String :=
  if pyLower (claimImageTag image) ∈ (["latest", "stable"] : List String) then "Always"
  else "IfNotPresent"

/-- The amended reading of the tag: the second element of the colon-split
(the text between the first and second colons), `latest` when the image has
no colon. -/
def amendedImageTag (image : String) : String :=
  match pySplit ':' image with
  | [] => "latest"
  | [_] => "latest"
  | _ :: t :: _ => t

/-- The source's `imageTag` agrees with the amended reading everywhere. -/
theorem imageTag_eq_amended (image : String) :
    imageTag image = amendedImageTag image := by
  unfold imageTag amendedImageTag
  cases h : pySplit ':' image with
  | nil => simp [List.getD]
  | cons a t =>
    cases t with
    | nil => simp
    | cons b t2 => simp [List.getD]

/-- C6 counterexample: on the image reference `myimg:stable:x` the code
computes `Always` (it takes the tag from the second element of the colon
split, here `stable`), while the claim's tag — the text after the colon,
`stable:x` — is neither `latest` nor `stable`, so the claim as stated
predicts `IfNotPresent`. -/
theorem c6_counterexample :
    image_pull_policy_of "myimg:stable:x" = "Always" ∧
    claimImageTag "myimg:stable:x" = "stable:x" ∧
    claimPullPolicy "myimg:stable:x" = "IfNotPresent" := by
  refine ⟨?_, ?_, ?_⟩ <;> decide

/-- C6 (amended): for every image reference the computed pull policy is
`Always` exactly when the image's tag — the text between the first and second
colons (the second element of the colon-split), or `latest` when no colon is
present — compared case-insensitively, is `latest` or `stable`, and
`IfNotPresent` otherwise; the claim's examples all hold. -/
theorem c6_pull_policy_amended :
    (∀ image, (image_pull_policy_of image = "Always" ↔
        pyLower (amendedImageTag image) ∈ (["latest", "stable"] : List String)) ∧
      (image_pull_policy_of image = "Always" ∨
        image_pull_policy_of image = "IfNotPresent")) ∧
    image_pull_policy_of "myimg:latest" = "Always" ∧
    image_pull_policy_of "myimg:stable" = "Always" ∧
    image_pull_policy_of "myimg" = "Always" ∧
    image_pull_policy_of "myimg:1.2.3" = "IfNotPresent" := by
  refine ⟨fun image => ?_, by decide, by decide, by decide, by decide⟩
  rw [image_pull_policy_of, imageTag_eq_amended]
  by_cases h : pyLower (amendedImageTag image) ∈ (["latest", "stable"] : List String)
  · simp [h]
  · simp [h]

/-- A valid job spec whose command is the claim's first tokenization example. -/
def specHelloWorld : JobSpec :=
  { image := some "worker:2.0", command := some "echo \"Hello, world\""
  , taskId := some "t1", project := some { id := some "p1" } }

/-- A valid job spec whose command is the claim's second tokenization example. -/
def specRunFlags : JobSpec :=
  { image := some "worker:2.0", command := some "run -x --flag=1"
  , taskId := some "t1", project := some { id := some "p1" } }

/-- C7: command tokenization follows POSIX-shell-style quoting: the command
string splits into whitespace-separated tokens, quoted substrings staying one
token with the quotes stripped; `echo \"Hello, world\"` tokenizes to
`[echo, Hello, world]` and `run -x --flag=1` to `[run, -x, --flag=1]`, and
the pods built by `create` carry exactly those token lists as the container
command. -/
theorem c7_command_tokenization :
    shlexSplit "echo \"Hello, world\"" = Except.ok ["echo", "Hello, world"] ∧
    shlexSplit "run -x --flag=1" = Except.ok ["run", "-x", "--flag=1"] ∧
    (createdPods (create "job-1" "ns" (some specHelloWorld) ⟨none, none⟩)).map
        (fun p => p.containers.map (fun c => c.command)) =
      [[["echo", "Hello, world"]]] ∧
    (createdPods (create "job-1" "ns" (some specRunFlags) ⟨none, none⟩)).map
        (fun p => p.containers.map (fun c => c.command)) =
      [[["run", "-x", "--flag=1"]]] := by
  refine ⟨by rfl, by rfl, ?_, ?_⟩ <;> decide

/-- A valid job spec whose command contains an unbalanced double quote. -/
def specUnbalanced : JobSpec :=
  { image := some "worker:2.0", command := some "echo \"oops"
  , taskId := some "t1", project := some { id := some "p1" } }

/-- C10: with an unbalanced quote in the command of an otherwise valid spec,
`create` raises the `ValueError` escaping `shlex.split` — not a
`kopf.PermanentError` — after mandatory-field validation (a missing mandatory
field still wins) and before any resource-store create call (the action
trace is empty). -/
theorem c10_unbalanced_quote_valueerror :
    create "job-1" "ns" (some specUnbalanced) ⟨none, none⟩ =
      { actions := [], err := some (CreateError.valueError "No closing quotation") } ∧
    (∀ m, (create "job-1" "ns" (some specUnbalanced) ⟨none, none⟩).err ≠
      some (CreateError.permanent m)) ∧
    create "job-1" "ns" (some { specUnbalanced with image := none }) ⟨none, none⟩ =
      permRes "image is not defined" := by
  refine ⟨by decide, ?_, by decide⟩
  intro m h
  have h2 : (create "job-1" "ns" (some specUnbalanced) ⟨none, none⟩).err =
      some (CreateError.valueError "No closing quotation") := by decide
  rw [h2] at h
  exact CreateError.noConfusion (Option.some.injEq _ _ ▸ h)

/-- C3: whenever `name`, `namespace`, the spec itself, `image`, `command`,
`taskId` or `project.id` is missing or empty, `create` raises
`kopf.PermanentError` and performs no resource-store call at all. -/
theorem c3_validation_permanent (name nspace : String) (spec : Option JobSpec)
    (orc : CreateOracle)
    (h : name = "" ∨ nspace = "" ∨ spec = none ∨
      ∃ s, spec = some s ∧ (s.image.getD "" = "" ∨ s.command.getD "" = "" ∨
        s.taskId.getD "" = "" ∨ (s.project.getD {}).id.getD "" = "")) :
    (create name nspace spec orc).actions = [] ∧
    ∃ m, (create name nspace spec orc).err = some (CreateError.permanent m) := by
  by_cases h1 : name = ""
  · simp [create, h1, permRes]
  by_cases h2 : nspace = ""
  · simp [create, h1, h2, permRes]
  cases spec with
  | none => simp [create, h1, h2, permRes]
  | some s =>
    rcases h with h | h | h | ⟨s2, hs2, h4⟩
    · exact absurd h h1
    · exact absurd h h2
    · exact Option.noConfusion h
    · obtain rfl : s = s2 := by injection hs2
      rcases h4 with h4 | h4 | h4 | h4
      · simp [create, h1, h2, h4, permRes]
      · by_cases hi : s.image.getD "" = "" <;>
          simp [create, h1, h2, hi, h4, permRes]
      · by_cases hi : s.image.getD "" = "" <;>
          by_cases hc : s.command.getD "" = "" <;>
            simp [create, h1, h2, hi, hc, h4, permRes]
      · by_cases hi : s.image.getD "" = "" <;>
          by_cases hc : s.command.getD "" = "" <;>
            by_cases ht : s.taskId.getD "" = "" <;>
              simp [create, h1, h2, hi, hc, ht, h4, permRes]

/-- C3 witness: a spec with image, taskId and project.id but no command is
rejected permanently with an empty action trace. -/
theorem c3_validation_permanent_witness :
    (create "job-1" "ns"
      (some { image := some "worker:2.0", taskId := some "t1"
            , project := some { id := some "p1" } }) ⟨none, none⟩).actions = [] ∧
    ∃ m, (create "job-1" "ns"
      (some { image := some "worker:2.0", taskId := some "t1"
            , project := some { id := some "p1" } }) ⟨none, none⟩).err =
        some (CreateError.permanent m) :=
  c3_validation_permanent "job-1" "ns" _ _
    (Or.inr (Or.inr (Or.inr ⟨_, rfl, Or.inr (Or.inl rfl)⟩)))

/-- C4: for a valid spec, the first action of `create` is the ConfigMap
create call; when that call raises, the error is reclassified as
`kopf.PermanentError` and no Pod create call is issued; when the Pod create
call raises instead, the error is also permanent, the ConfigMap create call
has already been issued, and no delete (rollback) call ever appears. -/
theorem c4_cm_first_pod_after (name nspace : String) (s : JobSpec)
    (orc : CreateOracle) (toks : List String)
    (hn : ¬name = "") (hns : ¬nspace = "")
    (hi : ¬s.image.getD "" = "") (hc : ¬s.command.getD "" = "")
    (ht : ¬s.taskId.getD "" = "") (hp : ¬(s.project.getD {}).id.getD "" = "")
    (htok : shlexSplit (s.command.getD "") = Except.ok toks) :
    (∃ cm rest, (create name nspace (some s) orc).actions =
        Action.createConfigMap nspace cm :: rest) ∧
    (∀ e, orc.cmCreate = some e →
      (create name nspace (some s) orc).err =
        some (CreateError.permanent ("ApiException (" ++ toString e.status ++ ")")) ∧
      ∀ ns2 p, Action.createPod ns2 p ∉ (create name nspace (some s) orc).actions) ∧
    (∀ e, orc.cmCreate = none → orc.podCreate = some e →
      (create name nspace (some s) orc).err =
        some (CreateError.permanent ("ApiException (" ++ toString e.status ++ ")")) ∧
      (∃ cm, Action.createConfigMap nspace cm ∈ (create name nspace (some s) orc).actions) ∧
      (create name nspace (some s) orc).actions.filter Action.isDelete = []) := by
  have hcr : create name nspace (some s) orc = createResolved name nspace s orc := by
    simp [create, hn, hns, hi, hc, ht, hp]
  rw [hcr]
  obtain ⟨ocm, opod⟩ := orc
  simp only [createResolved]
  rw [htok]
  cases ocm with
  | some e =>
    refine ⟨⟨_, _, rfl⟩, fun e2 he2 => ?_, fun e2 he2 => by exact absurd he2 (by simp)⟩
    obtain rfl : e = e2 := by injection he2
    exact ⟨rfl, by intro ns2 p; simp⟩
  | none =>
    cases opod with
    | some e =>
      cases hw : workingDirPath s.workingDirectory s.workingSubPath <;>
      by_cases hd : s.debug.getD false <;>
      (refine ⟨⟨_, _, rfl⟩, fun e2 he2 => absurd he2 (by simp),
          fun e2 _ he2 => ?_⟩
       obtain rfl : e = e2 := by injection he2
       exact ⟨rfl, ⟨_, List.mem_cons_self _ _⟩,
         by simp [hd, Action.isDelete]⟩)
    | none =>
      cases hw : workingDirPath s.workingDirectory s.workingSubPath <;>
      by_cases hd : s.debug.getD false <;>
      exact ⟨⟨_, _, rfl⟩, fun e2 he2 => Option.noConfusion he2,
        fun e2 _ he2 => Option.noConfusion he2⟩

/-- C4 witness: a concrete valid spec whose Pod create call fails with
status 500; the ConfigMap is created first and is not rolled back. -/
theorem c4_cm_first_pod_after_witness :
    (∃ cm rest, (create "job-1" "ns" (some specRunFlags)
        ⟨none, some ⟨500, "boom"⟩⟩).actions =
        Action.createConfigMap "ns" cm :: rest) ∧
    (∀ e, (⟨none, some ⟨500, "boom"⟩⟩ : CreateOracle).cmCreate = some e →
      (create "job-1" "ns" (some specRunFlags) ⟨none, some ⟨500, "boom"⟩⟩).err =
        some (CreateError.permanent ("ApiException (" ++ toString e.status ++ ")")) ∧
      ∀ ns2 p, Action.createPod ns2 p ∉
        (create "job-1" "ns" (some specRunFlags) ⟨none, some ⟨500, "boom"⟩⟩).actions) ∧
    (∀ e, (⟨none, some ⟨500, "boom"⟩⟩ : CreateOracle).cmCreate = none →
      (⟨none, some ⟨500, "boom"⟩⟩ : CreateOracle).podCreate = some e →
      (create "job-1" "ns" (some specRunFlags) ⟨none, some ⟨500, "boom"⟩⟩).err =
        some (CreateError.permanent ("ApiException (" ++ toString e.status ++ ")")) ∧
      (∃ cm, Action.createConfigMap "ns" cm ∈
        (create "job-1" "ns" (some specRunFlags) ⟨none, some ⟨500, "boom"⟩⟩).actions) ∧
      (create "job-1" "ns" (some specRunFlags)
        ⟨none, some ⟨500, "boom"⟩⟩).actions.filter Action.isDelete = []) :=
  c4_cm_first_pod_after "job-1" "ns" specRunFlags ⟨none, some ⟨500, "boom"⟩⟩
    ["run", "-x", "--flag=1"] (by decide) (by decide) (by decide) (by decide)
    (by decide) (by decide) (by rfl)

/-- Lookups of the four standard labels on a workload label list, for any
tail appended after them (such as the optional debug label). -/
theorem baseLabels_lookup (name task_id : String) (tail : List (String × String)) :
    (((POD_PURPOSE_LABEL, POD_PURPOSE_LABEL_VALUE) ::
      (POD_INSTANCE_LABEL, name) ::
      (POD_INSTANCE_IS_JOB, "yes") ::
      (POD_TASK_ID_LABEL, task_id) :: tail).lookup POD_PURPOSE_LABEL =
        some POD_PURPOSE_LABEL_VALUE) ∧
    (((POD_PURPOSE_LABEL, POD_PURPOSE_LABEL_VALUE) ::
      (POD_INSTANCE_LABEL, name) ::
      (POD_INSTANCE_IS_JOB, "yes") ::
      (POD_TASK_ID_LABEL, task_id) :: tail).lookup POD_INSTANCE_LABEL =
        some name) ∧
    (((POD_PURPOSE_LABEL, POD_PURPOSE_LABEL_VALUE) ::
      (POD_INSTANCE_LABEL, name) ::
      (POD_INSTANCE_IS_JOB, "yes") ::
      (POD_TASK_ID_LABEL, task_id) :: tail).lookup POD_INSTANCE_IS_JOB =
        some "yes") ∧
    (((POD_PURPOSE_LABEL, POD_PURPOSE_LABEL_VALUE) ::
      (POD_INSTANCE_LABEL, name) ::
      (POD_INSTANCE_IS_JOB, "yes") ::
      (POD_TASK_ID_LABEL, task_id) :: tail).lookup POD_TASK_ID_LABEL =
        some task_id) := by
  refine ⟨?_, ?_, ?_, ?_⟩ <;>
    simp [List.lookup,
      show (POD_PURPOSE_LABEL == POD_PURPOSE_LABEL) = true by decide,
      show (POD_INSTANCE_LABEL == POD_PURPOSE_LABEL) = false by decide,
      show (POD_INSTANCE_LABEL == POD_INSTANCE_LABEL) = true by decide,
      show (POD_INSTANCE_IS_JOB == POD_PURPOSE_LABEL) = false by decide,
      show (POD_INSTANCE_IS_JOB == POD_INSTANCE_LABEL) = false by decide,
      show (POD_INSTANCE_IS_JOB == POD_INSTANCE_IS_JOB) = true by decide,
      show (POD_TASK_ID_LABEL == POD_PURPOSE_LABEL) = false by decide,
      show (POD_TASK_ID_LABEL == POD_INSTANCE_LABEL) = false by decide,
      show (POD_TASK_ID_LABEL == POD_INSTANCE_IS_JOB) = false by decide,
      show (POD_TASK_ID_LABEL == POD_TASK_ID_LABEL) = true by decide]

/-- C5: for every valid job spec with name `N`, `create` issues the creation
of a ConfigMap named `nf-config-N` whose data is the single key
`nextflow.config` holding the rendered template, and of a Pod named `N`
carrying the purpose/instance-id/instance-is-job/task-id labels, whose single
container has exactly the one environment variable `NXF_WORK` set to
`<mount>/.N/work`. -/
theorem c5_built_objects (name nspace : String) (s : JobSpec)
    (orc : CreateOracle) (toks : List String)
    (hn : ¬name = "") (hns : ¬nspace = "")
    (hi : ¬s.image.getD "" = "") (hc : ¬s.command.getD "" = "")
    (ht : ¬s.taskId.getD "" = "") (hp : ¬(s.project.getD {}).id.getD "" = "")
    (htok : shlexSplit (s.command.getD "") = Except.ok toks)
    (hcm : orc.cmCreate = none) :
    ∃ cm pod,
      Action.createConfigMap nspace cm ∈ (create name nspace (some s) orc).actions ∧
      Action.createPod nspace pod ∈ (create name nspace (some s) orc).actions ∧
      cm.name = "nf-config-" ++ name ∧
      cm.data = [("nextflow.config",
        nextflowConfigText name SA
          ((s.securityContext.getD {}).runAsUser.getD default_user_id)
          ((s.project.getD {}).claimName.getD default_project_claim_name)
          (s.projectMount.getD default_project_mount)
          ((s.project.getD {}).id.getD ""))] ∧
      pod.name = name ∧
      pod.labels.lookup POD_PURPOSE_LABEL = some POD_PURPOSE_LABEL_VALUE ∧
      pod.labels.lookup POD_INSTANCE_LABEL = some name ∧
      pod.labels.lookup POD_INSTANCE_IS_JOB = some "yes" ∧
      pod.labels.lookup POD_TASK_ID_LABEL = some (s.taskId.getD "") ∧
      ∃ c, pod.containers = [c] ∧
        c.env = [("NXF_WORK",
          s.projectMount.getD default_project_mount ++ "/." ++ name ++ "/work")] := by
  have hcr : create name nspace (some s) orc = createResolved name nspace s orc := by
    simp [create, hn, hns, hi, hc, ht, hp]
  rw [hcr]
  obtain ⟨ocm, opod⟩ := orc
  obtain rfl : ocm = none := hcm
  simp only [createResolved]
  rw [htok]
  cases opod with
  | some e =>
    exact ⟨_, _, List.mem_cons_self _ _,
      List.mem_append_right _ (List.mem_cons_self _ _),
      rfl, rfl, rfl,
      (baseLabels_lookup name (s.taskId.getD "") _).1,
      (baseLabels_lookup name (s.taskId.getD "") _).2.1,
      (baseLabels_lookup name (s.taskId.getD "") _).2.2.1,
      (baseLabels_lookup name (s.taskId.getD "") _).2.2.2,
      ⟨_, rfl, rfl⟩⟩
  | none =>
    exact ⟨_, _, List.mem_cons_self _ _,
      List.mem_append_left _ (List.mem_append_right _ (List.mem_cons_self _ _)),
      rfl, rfl, rfl,
      (baseLabels_lookup name (s.taskId.getD "") _).1,
      (baseLabels_lookup name (s.taskId.getD "") _).2.1,
      (baseLabels_lookup name (s.taskId.getD "") _).2.2.1,
      (baseLabels_lookup name (s.taskId.getD "") _).2.2.2,
      ⟨_, rfl, rfl⟩⟩

/-- C5 witness: the concrete spec `specRunFlags` under a succeeding API. -/
theorem c5_built_objects_witness :
    ∃ cm pod,
      Action.createConfigMap "ns" cm ∈
        (create "job-1" "ns" (some specRunFlags) ⟨none, none⟩).actions ∧
      Action.createPod "ns" pod ∈
        (create "job-1" "ns" (some specRunFlags) ⟨none, none⟩).actions ∧
      cm.name = "nf-config-" ++ "job-1" ∧
      cm.data = [("nextflow.config",
        nextflowConfigText "job-1" SA
          ((specRunFlags.securityContext.getD {}).runAsUser.getD default_user_id)
          ((specRunFlags.project.getD {}).claimName.getD default_project_claim_name)
          (specRunFlags.projectMount.getD default_project_mount)
          ((specRunFlags.project.getD {}).id.getD ""))] ∧
      pod.name = "job-1" ∧
      pod.labels.lookup POD_PURPOSE_LABEL = some POD_PURPOSE_LABEL_VALUE ∧
      pod.labels.lookup POD_INSTANCE_LABEL = some "job-1" ∧
      pod.labels.lookup POD_INSTANCE_IS_JOB = some "yes" ∧
      pod.labels.lookup POD_TASK_ID_LABEL = some (specRunFlags.taskId.getD "") ∧
      ∃ c, pod.containers = [c] ∧
        c.env = [("NXF_WORK",
          specRunFlags.projectMount.getD default_project_mount ++ "/." ++
            "job-1" ++ "/work")] :=
  c5_built_objects "job-1" "ns" specRunFlags ⟨none, none⟩
    ["run", "-x", "--flag=1"] (by decide) (by decide) (by decide) (by decide)
    (by decide) (by decide) (by rfl) rfl

/-- Inversion: any Pod handed to a pod-create call inside `createResolved`
is the Pod built by `buildPod` from the resolved spec values, in the handler
namespace, and so carries the hard-coded security context. -/
theorem createResolved_createPod_inv (name nspace : String) (s : JobSpec)
    (orc : CreateOracle) (ns2 : String) (pod : Pod)
    (hmem : Action.createPod ns2 pod ∈ (createResolved name nspace s orc).actions) :
    ns2 = nspace ∧
    pod.securityContext =
      { runAsUser := (s.securityContext.getD {}).runAsUser.getD default_user_id
      , runAsGroup := (s.securityContext.getD {}).runAsGroup.getD default_group_id
      , fsGroup := 0 } := by
  obtain ⟨ocm, opod⟩ := orc
  simp only [createResolved] at hmem
  rcases htok : shlexSplit (s.command.getD "") with msg | toks <;> rw [htok] at hmem
  · simp at hmem
  cases ocm with
  | some e => simp at hmem
  | none =>
    cases hw : workingDirPath s.workingDirectory s.workingSubPath <;>
      rw [hw] at hmem <;>
    by_cases hd : s.debug.getD false <;>
    cases opod <;>
    · simp [hd] at hmem
      obtain ⟨rfl, rfl⟩ := hmem
      exact ⟨rfl, rfl⟩

/-- C9: every Pod that `create` hands to a pod-create call has the
pod-level security context with `fsGroup` hard-coded to `0`, while
`runAsUser`/`runAsGroup` come from the spec's security context with default
`1001`; the module's `default_fs_group` constant is `1001` and plays no part
in the Pod. -/
theorem c9_fsgroup_zero (name nspace : String) (spec : Option JobSpec)
    (orc : CreateOracle) (ns2 : String) (pod : Pod)
    (hmem : Action.createPod ns2 pod ∈ (create name nspace spec orc).actions) :
    pod.securityContext.fsGroup = 0 ∧
    (∃ s, spec = some s ∧
      pod.securityContext.runAsUser =
        (s.securityContext.getD {}).runAsUser.getD default_user_id ∧
      pod.securityContext.runAsGroup =
        (s.securityContext.getD {}).runAsGroup.getD default_group_id) ∧
    default_fs_group = 1001 ∧
    pod.securityContext.fsGroup ≠ default_fs_group := by
  by_cases h1 : name = ""
  · simp [create, h1, permRes] at hmem
  by_cases h2 : nspace = ""
  · simp [create, h1, h2, permRes] at hmem
  cases spec with
  | none => simp [create, h1, h2, permRes] at hmem
  | some s =>
    by_cases hi : s.image.getD "" = ""
    · simp [create, h1, h2, hi, permRes] at hmem
    by_cases hc : s.command.getD "" = ""
    · simp [create, h1, h2, hi, hc, permRes] at hmem
    by_cases ht : s.taskId.getD "" = ""
    · simp [create, h1, h2, hi, hc, ht, permRes] at hmem
    by_cases hp : (s.project.getD {}).id.getD "" = ""
    · simp [create, h1, h2, hi, hc, ht, hp, permRes] at hmem
    have hcr : create name nspace (some s) orc = createResolved name nspace s orc := by
      simp [create, h1, h2, hi, hc, ht, hp]
    rw [hcr] at hmem
    obtain ⟨hns2, hsc⟩ := createResolved_createPod_inv name nspace s orc ns2 pod hmem
    exact ⟨by rw [hsc], ⟨s, rfl, by rw [hsc], by rw [hsc]⟩, rfl,
      by rw [hsc]; simp [default_fs_group]⟩

/-- The Pod `create` builds for the spec `specRunFlags`. -/
def podRunFlags : Pod :=
  buildPod "job-1" "worker:2.0" ["run", "-x", "--flag=1"] "IfNotPresent" "t1"
    1001 1001 "1" "1Gi" "1" "1Gi" "/project" "p1" "project" none false

/-- C9 witness: the Pod created for `specRunFlags` has `fsGroup = 0` and the
defaulted run-as-user/group of `1001`. -/
theorem c9_fsgroup_zero_witness :
    podRunFlags.securityContext.fsGroup = 0 ∧
    (∃ s, (some specRunFlags) = some s ∧
      podRunFlags.securityContext.runAsUser =
        (s.securityContext.getD {}).runAsUser.getD default_user_id ∧
      podRunFlags.securityContext.runAsGroup =
        (s.securityContext.getD {}).runAsGroup.getD default_group_id) ∧
    default_fs_group = 1001 ∧
    podRunFlags.securityContext.fsGroup ≠ default_fs_group :=
  c9_fsgroup_zero "job-1" "ns" (some specRunFlags) ⟨none, none⟩ "ns" podRunFlags
    (by decide)

/-- C1: for a MODIFIED notification in a terminal phase, with no debug label
and an instance-id label, `job_event`'s delete/sleep behaviour is exactly:
the grace sleep first (when the configured delay is positive; the default is
5), then one pod delete by name/namespace, then one delete of the ConfigMap
`nf-config-<instance-id>` in the same namespace. -/
theorem c1_completion_deletes_in_order (d : Nat) (ev : Event) (orc : DeleteOracle)
    (iid : String)
    (hty : ev.type = "MODIFIED")
    (hph : ev.object.phase ∈ terminalPhases)
    (hdbg : ev.object.labels.lookup POD_DEBUG_LABEL = none)
    (hiid : ev.object.labels.lookup POD_INSTANCE_LABEL = some iid) :
    (jobEvent d ev orc).1.filter Action.isDeleteOrSleep =
      (if d > 0 then [Action.sleep d] else []) ++
      [Action.deletePod ev.object.name ev.object.nspace,
       Action.deleteConfigMap ("nf-config-" ++ iid) ev.object.nspace] ∧
    defaultPodPreDeleteDelayS = 5 := by
  obtain ⟨opd, ocd⟩ := orc
  refine ⟨?_, rfl⟩
  by_cases hd0 : d > 0 <;> cases opd <;> cases ocd <;>
    simp [jobEvent, hty, hph, hdbg, hiid, hd0, Action.isDeleteOrSleep]

/-- The event fixture: a Succeeded pod of the operator, no debug label. -/
def evSucceeded : Event :=
  { type := "MODIFIED"
  , object := { name := "job-1", nspace := "ns", phase := "Succeeded"
              , labels := [(POD_PURPOSE_LABEL, POD_PURPOSE_LABEL_VALUE),
                           (POD_INSTANCE_LABEL, "job-1")] } }

/-- The event fixture: a Failed pod carrying the debug-protection label. -/
def evDebugFailed : Event :=
  { type := "MODIFIED"
  , object := { name := "job-2", nspace := "ns", phase := "Failed"
              , labels := [(POD_PURPOSE_LABEL, POD_PURPOSE_LABEL_VALUE),
                           (POD_INSTANCE_LABEL, "job-2"),
                           (POD_DEBUG_LABEL, "yes")] } }

/-- C1 witness: the default delay of 5 on a Succeeded notification. -/
theorem c1_completion_deletes_in_order_witness :
    (jobEvent 5 evSucceeded ⟨none, none⟩).1.filter Action.isDeleteOrSleep =
      (if 5 > 0 then [Action.sleep 5] else []) ++
      [Action.deletePod evSucceeded.object.name evSucceeded.object.nspace,
       Action.deleteConfigMap ("nf-config-" ++ "job-1") evSucceeded.object.nspace] ∧
    defaultPodPreDeleteDelayS = 5 :=
  c1_completion_deletes_in_order 5 evSucceeded ⟨none, none⟩ "job-1" rfl
    (by decide) (by decide) (by decide)

/-- C2: `job_event` never deletes unless the notification is MODIFIED, the
phase is terminal, and the pod has no debug label; when the notification is
MODIFIED and terminal but the debug label is present, there is no delete and
no sleep, only the protection warning record. -/
theorem c2_no_delete_unless (d : Nat) (ev : Event) (orc : DeleteOracle)
    (h : ¬(ev.type = "MODIFIED" ∧ ev.object.phase ∈ terminalPhases ∧
        ev.object.labels.lookup POD_DEBUG_LABEL = none)) :
    (jobEvent d ev orc).1.filter Action.isDelete = [] ∧
    (ev.type = "MODIFIED" → ev.object.phase ∈ terminalPhases →
      (jobEvent d ev orc).1.filter Action.isDeleteOrSleep = [] ∧
      Action.logWarning ("Not deleting Job \"" ++ ev.object.name ++
          "\". It is protected from deletion as it has a debug label.") ∈
        (jobEvent d ev orc).1) := by
  by_cases hty : ev.type = "MODIFIED"
  · by_cases hph : ev.object.phase ∈ terminalPhases
    · have hdbg : ¬ev.object.labels.lookup POD_DEBUG_LABEL = none := fun hn =>
        h ⟨hty, hph, hn⟩
      have hsome : (ev.object.labels.lookup POD_DEBUG_LABEL).isSome = true := by
        cases hx : ev.object.labels.lookup POD_DEBUG_LABEL with
        | none => exact absurd hx hdbg
        | some v => rfl
      refine ⟨by simp [jobEvent, hty, hph, hsome, Action.isDelete], fun _ _ => ?_⟩
      exact ⟨by simp [jobEvent, hty, hph, hsome, Action.isDeleteOrSleep],
        by simp [jobEvent, hty, hph, hsome]⟩
    · exact ⟨by simp [jobEvent, hty, hph, Action.isDelete],
        fun _ hph2 => absurd hph2 hph⟩
  · exact ⟨by simp [jobEvent, hty, Action.isDelete],
      fun hty2 => absurd hty2 hty⟩

/-- C2 witness: a Failed pod protected by the debug label gets no delete and
no sleep, only the warning record. -/
theorem c2_no_delete_unless_witness :
    (jobEvent 5 evDebugFailed ⟨none, none⟩).1.filter Action.isDelete = [] ∧
    (evDebugFailed.type = "MODIFIED" →
      evDebugFailed.object.phase ∈ terminalPhases →
      (jobEvent 5 evDebugFailed ⟨none, none⟩).1.filter Action.isDeleteOrSleep = [] ∧
      Action.logWarning ("Not deleting Job \"" ++ evDebugFailed.object.name ++
          "\". It is protected from deletion as it has a debug label.") ∈
        (jobEvent 5 evDebugFailed ⟨none, none⟩).1) :=
  c2_no_delete_unless 5 evDebugFailed ⟨none, none⟩ (by decide)

/-- C8: a failing pod delete during cleanup is logged with its status and
body and not escalated — the ConfigMap delete is still attempted, both
delete calls appear exactly once, a failing ConfigMap delete is also only
logged, and the handler finishes without an uncaught error. -/
theorem c8_cleanup_tolerates_failures (d : Nat) (ev : Event) (orc : DeleteOracle)
    (iid : String) (e1 : ApiExc)
    (hty : ev.type = "MODIFIED")
    (hph : ev.object.phase ∈ terminalPhases)
    (hdbg : ev.object.labels.lookup POD_DEBUG_LABEL = none)
    (hiid : ev.object.labels.lookup POD_INSTANCE_LABEL = some iid)
    (hpd : orc.podDelete = some e1) :
    (jobEvent d ev orc).2 = none ∧
    Action.logWarning ("ApiException (" ++ toString e1.status ++
        ") deleting Pod \"" ++ ev.object.name ++ "\" (" ++ e1.body ++ ")") ∈
      (jobEvent d ev orc).1 ∧
    (jobEvent d ev orc).1.filter Action.isDelete =
      [Action.deletePod ev.object.name ev.object.nspace,
       Action.deleteConfigMap ("nf-config-" ++ iid) ev.object.nspace] ∧
    (∀ e2, orc.cmDelete = some e2 →
      Action.logWarning ("ApiException (" ++ toString e2.status ++
          ") deleting ConfigMap \"" ++ ("nf-config-" ++ iid) ++ "\"(" ++
          e2.body ++ ")") ∈ (jobEvent d ev orc).1) := by
  obtain ⟨opd, ocd⟩ := orc
  obtain rfl : opd = some e1 := hpd
  refine ⟨?_, ?_, ?_, ?_⟩
  · cases ocd <;> by_cases hd0 : d > 0 <;>
      simp [jobEvent, hty, hph, hdbg, hiid, hd0]
  · cases ocd <;> by_cases hd0 : d > 0 <;>
      simp [jobEvent, hty, hph, hdbg, hiid, hd0]
  · cases ocd <;> by_cases hd0 : d > 0 <;>
      simp [jobEvent, hty, hph, hdbg, hiid, hd0, Action.isDelete]
  · intro e2 he2
    obtain rfl : ocd = some e2 := he2
    by_cases hd0 : d > 0 <;>
      simp [jobEvent, hty, hph, hdbg, hiid, hd0]

/-- C8 witness: a repeated terminal notification where both deletes fail
with 404 "not found" still completes and attempts both deletions. -/
theorem c8_cleanup_tolerates_failures_witness :
    (jobEvent 5 evSucceeded
      ⟨some ⟨404, "not found"⟩, some ⟨404, "not found"⟩⟩).2 = none ∧
    Action.logWarning ("ApiException (" ++ toString (404 : Nat) ++
        ") deleting Pod \"" ++ evSucceeded.object.name ++ "\" (" ++
        "not found" ++ ")") ∈
      (jobEvent 5 evSucceeded
        ⟨some ⟨404, "not found"⟩, some ⟨404, "not found"⟩⟩).1 ∧
    (jobEvent 5 evSucceeded
      ⟨some ⟨404, "not found"⟩, some ⟨404, "not found"⟩⟩).1.filter Action.isDelete =
      [Action.deletePod evSucceeded.object.name evSucceeded.object.nspace,
       Action.deleteConfigMap ("nf-config-" ++ "job-1") evSucceeded.object.nspace] ∧
    (∀ e2, (⟨some ⟨404, "not found"⟩, some ⟨404, "not found"⟩⟩ :
        DeleteOracle).cmDelete = some e2 →
      Action.logWarning ("ApiException (" ++ toString e2.status ++
          ") deleting ConfigMap \"" ++ ("nf-config-" ++ "job-1") ++ "\"(" ++
          e2.body ++ ")") ∈
        (jobEvent 5 evSucceeded
          ⟨some ⟨404, "not found"⟩, some ⟨404, "not found"⟩⟩).1) :=
  c8_cleanup_tolerates_failures 5 evSucceeded
    ⟨some ⟨404, "not found"⟩, some ⟨404, "not found"⟩⟩ "job-1" ⟨404, "not found"⟩
    rfl (by decide) (by decide) (by decide) rfl

end JobOperator
